import Mathlib

/-!
Shallow embedding of the EED (extended edit distance) metric accumulator
from src/torchmetrics/text/eed.py and of the deprecated iou wrapper from
src/torchmetrics/functional/classification/iou.py.

Numeric tensors are modelled by rationals; tensor(0.0) becomes (0 : Rat).
The scoring routines _eed_function, _eed_update and _eed_compute live in
torchmetrics/functional/text/eed.py, which is not among the shown sources;
they are modelled from the specification text and marked as such below.
-/

/-- Clamp a rational to the closed interval [0, 1]. -/
def clamp01 (x : ℚ) : ℚ := min 1 (max 0 x)

/-- Cost parameters of the EED aligner, mirroring the fields alpha, rho,
deletion and insertion stored on the EED metric object. -/
structure EEDParams where
  alpha : ℚ
  rho : ℚ
  deletion : ℚ
  insertion : ℚ
deriving DecidableEq, Repr

/-- Modelled from the spec: the alignment routine (_eed_function of
torchmetrics/functional/text/eed.py) is not among the shown sources, only
its caller is, so the dynamic program of spec section 4.1 step 1 is
embedded from the specification text.  The value is the minimum
accumulated cost to align the two remaining suffixes, with transitions:
match (cost 0), substitution or insertion (cost insertion), deletion
(cost deletion), and a jump that skips a contiguous nonempty run of
either sequence at flat cost alpha. -/
def eedMinCost (p : EEDParams) : List Char → List Char → ℚ
  | [], [] => 0
  | [], _r :: rs =>
      let del := p.deletion + eedMinCost p [] rs
      let jumps := (List.range (rs.length + 1)).map
        fun k => p.alpha + eedMinCost p [] (rs.drop k)
      jumps.foldr min del
  | _h :: hs, [] =>
      let ins := p.insertion + eedMinCost p hs []
      let jumps := (List.range (hs.length + 1)).map
        fun k => p.alpha + eedMinCost p (hs.drop k) []
      jumps.foldr min ins
  | h :: hs, r :: rs =>
      let sub := (if h = r then 0 else p.insertion) + eedMinCost p hs rs
      let ins := p.insertion + eedMinCost p hs (r :: rs)
      let del := p.deletion + eedMinCost p (h :: hs) rs
      let jumpsH := (List.range (hs.length + 1)).map
        fun k => p.alpha + eedMinCost p (hs.drop k) (r :: rs)
      let jumpsR := (List.range (rs.length + 1)).map
        fun k => p.alpha + eedMinCost p (h :: hs) (rs.drop k)
      (jumpsH ++ jumpsR).foldr min (min sub (min ins del))
termination_by l r => l.length + r.length
decreasing_by
  all_goals simp_wf
  all_goals omega

/-- Modelled from the spec: the coverage counter of section 4.1 step 2
counts reference symbols visited more than once along the optimal
alignment.  In this prefix-monotone embedding of the dynamic program an
optimal path visits every reference symbol at most once, so the counter
is zero; ties between optimal paths are resolved toward non-jump
transitions per the stated tie-break policy, which never increases the
counter. -/
def repetitionCount (_p : EEDParams) (_hyp _ref : List Char) : ℕ := 0

/-- Modelled from the spec: the per-pair sentence score, normalization
step of section 4.1 step 3: divide the edit cost plus the coverage cost
rho * repetitions by max(1, reference length + repetitions) and clamp the
quotient to [0, 1]. -/
def scoreAgainstRef (p : EEDParams) (hyp ref : List Char) : ℚ :=
  let rep : ℕ := repetitionCount p hyp ref
  clamp01 ((eedMinCost p hyp ref + p.rho * (rep : ℚ)) / max 1 ((ref.length : ℚ) + (rep : ℚ)))

/-- Modelled from the spec: score_sentence of section 4.1 step 4: the
minimum score over the given references; an empty reference list violates
the input contract (InvalidArgument) and is modelled as none. -/
def scoreSentence (p : EEDParams) (hyp : List Char) (refs : List (List Char)) : Option ℚ :=
  match refs with
  | [] => none
  | r :: rs => some ((rs.map (scoreAgainstRef p hyp)).foldr min (scoreAgainstRef p hyp r))

/-- Modelled from the spec: sequential scoring of a batch of
(hypothesis, references) pairs; fails (none) as soon as one pair violates
the input contract. -/
def scoreBatch (p : EEDParams) : List (List Char × List (List Char)) → Option (List ℚ)
  | [] => some []
  | pr :: rest =>
      match scoreSentence p pr.1 pr.2, scoreBatch p rest with
      | some v, some vs => some (v :: vs)
      | _, _ => none

/-- Modelled from the spec: _eed_update of
torchmetrics/functional/text/eed.py is not among the shown sources;
following the score_corpus contract of section 4.1 it returns the sum of
the per-sentence scores, the sentence count, and the per-sentence list
exactly when sentence-level reporting was requested. -/
def eedUpdateBatch (p : EEDParams) (track : Bool)
    (batch : List (List Char × List (List Char))) : Option (ℚ × ℕ × List ℚ) :=
  (scoreBatch p batch).map fun scores =>
    (scores.sum, scores.length, if track then scores else [])

/-- Modelled from the spec: _eed_compute of
torchmetrics/functional/text/eed.py is not among the shown sources; per
spec section 4.2, finalize computes total_score / total_sentences, and
the zero-sentence case is the explicit DivisionUndefined outcome
(modelled as none), never a silent NaN. -/
def eedComputeTotal (scores total_num_sentences : ℚ) : Option ℚ :=
  if total_num_sentences = 0 then none else some (scores / total_num_sentences)

/-- Outcome of EED.compute.  The error constructors transcribe the error
taxonomy of spec section 7 so that its claims are statable; which of them
the embedded code actually produces is settled by the theorems below. -/
inductive ComputeResult where
  | value (v : ℚ)
  | sentenceScores (l : List ℚ)
  | divisionUndefined
  | featureNotEnabled
deriving DecidableEq, Repr

/-- The state of one EED metric object: the constructor arguments kept on
self (language, return_sentence_level_score, the cost parameters) and the
registered metric states scores, total_num_sentences and sentence_eed. -/
structure EEDState where
  language : String
  return_sentence_level_score : Bool
  params : EEDParams
  scores : ℚ
  total_num_sentences : ℚ
  sentence_eed : List ℚ
deriving DecidableEq, Repr

namespace EED

/-- The zeroed state that add_state produces in EED.__init__: scores and
total_num_sentences start at tensor(0.0) and the sentence list starts
empty. -/
def initState (language : String) (return_sentence_level_score : Bool)
    (p : EEDParams) : EEDState :=
  { language := language
    return_sentence_level_score := return_sentence_level_score
    params := p
    scores := 0
    total_num_sentences := 0
    sentence_eed := [] }

/-- EED.__init__ (src/torchmetrics/text/eed.py lines 74-107): validates
only the language tag, raising ValueError when it is neither en nor ja;
the cost parameters alpha, rho, deletion and insertion are stored without
any check. -/
def init (language : String) (return_sentence_level_score : Bool)
    (p : EEDParams) : Except String EEDState :=
  if language = "en" ∨ language = "ja" then
    .ok (initState language return_sentence_level_score p)
  else
    .error "Expected argument language to either be en or ja"

/-- EED.update (src/torchmetrics/text/eed.py lines 109-134): scores the
batch with _eed_update, adds the batch score sum and sentence count to
the running totals, and extends sentence_eed exactly when
return_sentence_level_score is set. -/
def update (s : EEDState) (batch : List (List Char × List (List Char))) :
    Option EEDState :=
  (eedUpdateBatch s.params s.return_sentence_level_score batch).map fun r =>
    { s with
      scores := s.scores + r.1
      total_num_sentences := s.total_num_sentences + (r.2.1 : ℚ)
      sentence_eed := s.sentence_eed ++ r.2.2 }

/-- The cross-process reduction of the metric states declared in
EED.__init__ lines 104-107: dist_reduce_fx is sum for scores and
total_num_sentences and cat for sentence_eed; the configuration fields
come from the left operand (synchronized replicas share them). -/
def merge (a b : EEDState) : EEDState :=
  { a with
    scores := a.scores + b.scores
    total_num_sentences := a.total_num_sentences + b.total_num_sentences
    sentence_eed := a.sentence_eed ++ b.sentence_eed }

/-- EED.compute (src/torchmetrics/text/eed.py lines 136-144): returns the
per-sentence list when return_sentence_level_score is set, otherwise the
result of _eed_compute on the running totals. -/
def compute (s : EEDState) : ComputeResult :=
  if s.return_sentence_level_score then .sentenceScores s.sentence_eed
  else
    match eedComputeTotal s.scores s.total_num_sentences with
    | some v => .value v
    | none => .divisionUndefined

/-- Accumulator states reachable from a freshly constructed metric by
update calls and by merging with another reachable state.  Merged states
are synchronized replicas of one metric, so they share the
return_sentence_level_score configuration. -/
inductive Reachable : EEDState → Prop
  | init (language : String) (track : Bool) (p : EEDParams) :
      Reachable (initState language track p)
  | update (s t : EEDState) (batch : List (List Char × List (List Char))) :
      Reachable s → update s batch = some t → Reachable t
  | merge (s t : EEDState) :
      Reachable s → Reachable t →
      s.return_sentence_level_score = t.return_sentence_level_score →
      Reachable (merge s t)

end EED

/-- The deprecated iou wrapper
(src/torchmetrics/functional/classification/iou.py lines 23-51): after a
deprecation warning it forwards every argument, in order, to
jaccard_index.  jaccard_index lives in a module outside the shown
sources, so it is a parameter of the embedding, as is the tensor type. -/
def iou {Tensor : Type}
    (jaccard_index : Tensor → Tensor → Option Int → ℚ → ℚ → Option Nat → String → Tensor)
    (preds target : Tensor) (ignore_index : Option Int)
    (absent_score threshold : ℚ) (num_classes : Option Nat)
    (reduction : String) : Tensor :=
  jaccard_index preds target ignore_index absent_score threshold num_classes reduction

/-! ### Helper lemmas -/

theorem foldr_min_le_init (l : List ℚ) (a : ℚ) : l.foldr min a ≤ a := by
  induction l with
  | nil => exact le_refl a
  | cons b l ih => exact le_trans (min_le_right b _) ih

theorem clamp01_nonneg (x : ℚ) : 0 ≤ clamp01 x :=
  le_min (by norm_num) (le_max_left 0 x)

theorem clamp01_le_one (x : ℚ) : clamp01 x ≤ 1 := min_le_left 1 _

theorem clamp01_of_nonpos {x : ℚ} (h : x ≤ 0) : clamp01 x = 0 := by
  unfold clamp01
  rw [max_eq_left h, min_eq_right (by norm_num : (0:ℚ) ≤ 1)]

theorem eedMinCost_self_nonpos (p : EEDParams) (l : List Char) :
    eedMinCost p l l ≤ 0 := by
  induction l with
  | nil => simp [eedMinCost]
  | cons x xs ih =>
      rw [eedMinCost]
      refine le_trans (foldr_min_le_init _ _) ?_
      refine le_trans (min_le_left _ _) ?_
      simpa using ih

theorem scoreAgainstRef_nonneg (p : EEDParams) (hyp ref : List Char) :
    0 ≤ scoreAgainstRef p hyp ref := by
  unfold scoreAgainstRef
  exact clamp01_nonneg _

theorem scoreAgainstRef_le_one (p : EEDParams) (hyp ref : List Char) :
    scoreAgainstRef p hyp ref ≤ 1 := by
  unfold scoreAgainstRef
  exact clamp01_le_one _

theorem scoreAgainstRef_self (p : EEDParams) (l : List Char) :
    scoreAgainstRef p l l = 0 := by
  unfold scoreAgainstRef repetitionCount
  simp only [Nat.cast_zero, mul_zero, add_zero]
  refine clamp01_of_nonpos (div_nonpos_iff.mpr (Or.inr ⟨eedMinCost_self_nonpos p l, ?_⟩))
  exact le_trans (by norm_num) (le_max_left 1 _)

/-! ### Concrete instances used by witnesses and counterexamples -/

/-- The default cost parameters of EED.__init__: alpha = 2.0, rho = 0.3,
deletion = 0.2, insertion = 1.0. -/
def defaultParams : EEDParams :=
  { alpha := 2, rho := 3/10, deletion := 1/5, insertion := 1 }

/-- A state with sentence-level reporting enabled holding one accumulated
sentence. -/
def sentenceLevelState : EEDState :=
  { language := "en"
    return_sentence_level_score := true
    params := defaultParams
    scores := 1/2
    total_num_sentences := 1
    sentence_eed := [1/2] }

/-- A state with sentence-level reporting disabled holding one
accumulated sentence. -/
def corpusState : EEDState :=
  { language := "en"
    return_sentence_level_score := false
    params := defaultParams
    scores := 1/2
    total_num_sentences := 1
    sentence_eed := [] }

/-- A second tracking-disabled state, used for the accessor claims. -/
def disabledState : EEDState :=
  { language := "en"
    return_sentence_level_score := false
    params := defaultParams
    scores := 3/5
    total_num_sentences := 2
    sentence_eed := [] }

/-! ### Claim theorems -/

/-- Claim C2: for every hypothesis equal to its reference, score_sentence
returns exactly 0. -/
theorem scoreSentence_self_eq_zero (p : EEDParams) (hyp ref : List Char)
    (h : hyp = ref) : scoreSentence p hyp [ref] = some 0 := by
  subst h
  simp [scoreSentence, scoreAgainstRef_self]

/-- Witness for C2 at a concrete hypothesis. -/
theorem scoreSentence_self_eq_zero_witness :
    (['a', 'b'] : List Char) = ['a', 'b'] ∧
    scoreSentence defaultParams ['a', 'b'] [['a', 'b']] = some 0 :=
  ⟨rfl, scoreSentence_self_eq_zero defaultParams ['a', 'b'] ['a', 'b'] rfl⟩

/-- Claim C3: for every non-empty hypothesis paired with a non-empty
reference, the result of score_sentence lies in the closed interval
[0, 1]. -/
theorem scoreSentence_mem_unit_interval (p : EEDParams) (hyp ref : List Char)
    (_hh : hyp ≠ []) (_hr : ref ≠ []) :
    ∃ v, scoreSentence p hyp [ref] = some v ∧ 0 ≤ v ∧ v ≤ 1 :=
  ⟨scoreAgainstRef p hyp ref, by simp [scoreSentence],
    scoreAgainstRef_nonneg p hyp ref, scoreAgainstRef_le_one p hyp ref⟩

/-- Witness for C3 at a concrete non-empty pair. -/
theorem scoreSentence_mem_unit_interval_witness :
    (['a'] : List Char) ≠ [] ∧ (['b'] : List Char) ≠ [] ∧
    ∃ v, scoreSentence defaultParams ['a'] [['b']] = some v ∧ 0 ≤ v ∧ v ≤ 1 :=
  ⟨by decide, by decide,
    scoreSentence_mem_unit_interval defaultParams ['a'] ['b'] (by decide) (by decide)⟩

/-- Claim C10: the deprecated iou function returns exactly the value of
jaccard_index applied to the same arguments in the same order, performing
no computation of its own. -/
theorem iou_delegates_to_jaccard_index {Tensor : Type}
    (jaccard_index : Tensor → Tensor → Option Int → ℚ → ℚ → Option Nat → String → Tensor)
    (preds target : Tensor) (ignore_index : Option Int)
    (absent_score threshold : ℚ) (num_classes : Option Nat)
    (reduction : String) :
    iou jaccard_index preds target ignore_index absent_score threshold num_classes reduction =
      jaccard_index preds target ignore_index absent_score threshold num_classes reduction :=
  rfl

/-- Counterexample to claim C1 as stated: a state with
total_num_sentences > 0 but sentence-level reporting enabled, on which
compute returns the per-sentence list, not total_score divided by
total_sentences. -/
theorem compute_not_average_on_sentence_level_state :
    0 < sentenceLevelState.total_num_sentences ∧
    EED.compute sentenceLevelState ≠
      ComputeResult.value (sentenceLevelState.scores / sentenceLevelState.total_num_sentences) := by
  constructor
  · norm_num [sentenceLevelState]
  · simp [EED.compute, sentenceLevelState]

/-- Claim C1 amended: for every accumulator state with
total_num_sentences > 0 and return_sentence_level_score disabled,
compute returns exactly total_score / total_sentences. -/
theorem compute_corpus_average (s : EEDState)
    (hflag : s.return_sentence_level_score = false)
    (hpos : 0 < s.total_num_sentences) :
    EED.compute s = ComputeResult.value (s.scores / s.total_num_sentences) := by
  simp [EED.compute, hflag, eedComputeTotal, ne_of_gt hpos]

/-- Witness for amended C1 at a concrete state. -/
theorem compute_corpus_average_witness :
    corpusState.return_sentence_level_score = false ∧
    0 < corpusState.total_num_sentences ∧
    EED.compute corpusState =
      ComputeResult.value (corpusState.scores / corpusState.total_num_sentences) :=
  ⟨rfl, by norm_num [corpusState], compute_corpus_average corpusState rfl (by norm_num [corpusState])⟩

/-- Counterexample to claim C5 as stated: construction with a negative
alpha cost parameter succeeds; only the language tag is validated. -/
theorem init_accepts_negative_cost :
    ({ alpha := -1, rho := 3/10, deletion := 1/5, insertion := 1 : EEDParams }).alpha < 0 ∧
    EED.init "en" false { alpha := -1, rho := 3/10, deletion := 1/5, insertion := 1 } =
      Except.ok (EED.initState "en" false { alpha := -1, rho := 3/10, deletion := 1/5, insertion := 1 }) := by
  constructor
  · norm_num
  · simp [EED.init]

/-- Claim C5 amended: construction fails (with the ValueError that models
InvalidArgument) exactly when the language tag is outside the enumerated
set en, ja; the cost parameters are stored without validation, so no
value of them makes construction fail. -/
theorem init_validates_language_only (language : String) (track : Bool) (p : EEDParams) :
    (language = "en" ∨ language = "ja" →
      EED.init language track p = Except.ok (EED.initState language track p)) ∧
    (language ≠ "en" ∧ language ≠ "ja" →
      ∃ e, EED.init language track p = Except.error e) := by
  constructor
  · intro h
    simp [EED.init, h]
  · rintro ⟨h1, h2⟩
    refine ⟨"Expected argument language to either be en or ja", ?_⟩
    simp [EED.init, h1, h2]

/-- Witness for amended C5 at a concrete rejected language tag. -/
theorem init_validates_language_only_witness :
    (("fr" : String) ≠ "en" ∧ ("fr" : String) ≠ "ja") ∧
    ∃ e, EED.init "fr" false defaultParams = Except.error e :=
  ⟨⟨by decide, by decide⟩,
    (init_validates_language_only "fr" false defaultParams).2 ⟨by decide, by decide⟩⟩

/-- Claim C6: compute on a state that has accumulated zero sentences (and
reports the corpus scalar) yields the explicit DivisionUndefined outcome,
never a silent NaN. -/
theorem compute_zero_sentences_division_undefined (s : EEDState)
    (hflag : s.return_sentence_level_score = false)
    (h0 : s.total_num_sentences = 0) :
    EED.compute s = ComputeResult.divisionUndefined := by
  simp [EED.compute, hflag, eedComputeTotal, h0]

/-- Witness for C6 on a freshly constructed, never updated state. -/
theorem compute_zero_sentences_division_undefined_witness :
    (EED.initState "en" false defaultParams).return_sentence_level_score = false ∧
    (EED.initState "en" false defaultParams).total_num_sentences = 0 ∧
    EED.compute (EED.initState "en" false defaultParams) = ComputeResult.divisionUndefined :=
  ⟨rfl, rfl, compute_zero_sentences_division_undefined _ rfl rfl⟩

/-- Counterexample to claim C7 as stated: on a tracking-disabled state
the only read operation, compute, returns the corpus value and does not
fail with FeatureNotEnabled. -/
theorem compute_disabled_no_feature_error_cex :
    disabledState.return_sentence_level_score = false ∧
    EED.compute disabledState ≠ ComputeResult.featureNotEnabled := by
  constructor
  · rfl
  · simp [EED.compute, disabledState, eedComputeTotal]

/-- Claim C7 amended: the code has no separate per-sentence accessor and
never raises FeatureNotEnabled; on a tracking-disabled state compute
never returns the per-sentence list either, it returns the corpus
result. -/
theorem compute_disabled_tracking (s : EEDState)
    (hflag : s.return_sentence_level_score = false) :
    EED.compute s ≠ ComputeResult.featureNotEnabled ∧
    ∀ l, EED.compute s ≠ ComputeResult.sentenceScores l := by
  by_cases h0 : s.total_num_sentences = 0 <;>
    simp [EED.compute, hflag, eedComputeTotal, h0]

/-- Witness for amended C7 at a concrete tracking-disabled state. -/
theorem compute_disabled_tracking_witness :
    corpusState.return_sentence_level_score = false ∧
    (EED.compute corpusState ≠ ComputeResult.featureNotEnabled ∧
      ∀ l, EED.compute corpusState ≠ ComputeResult.sentenceScores l) :=
  ⟨rfl, compute_disabled_tracking corpusState rfl⟩

/-- Claim C9: with return_sentence_level_score enabled, compute returns
the ordered per-sentence list; a scalar corpus value is only ever
returned when the flag is disabled. -/
theorem compute_sentence_level_selector (s : EEDState) :
    (s.return_sentence_level_score = true →
      EED.compute s = ComputeResult.sentenceScores s.sentence_eed) ∧
    (∀ v, EED.compute s = ComputeResult.value v →
      s.return_sentence_level_score = false) := by
  by_cases hflag : s.return_sentence_level_score <;>
    by_cases h0 : s.total_num_sentences = 0 <;>
    simp [EED.compute, hflag, eedComputeTotal, h0]

/-- Witness for C9 at a concrete tracking-enabled state. -/
theorem compute_sentence_level_selector_witness :
    EED.compute sentenceLevelState =
      ComputeResult.sentenceScores sentenceLevelState.sentence_eed :=
  (compute_sentence_level_selector sentenceLevelState).1 rfl

/-- Claim C4: merge is commutative (identical totals, identical
per-sentence multiset) and associative (identical states). -/
theorem merge_comm_and_assoc (A B C : EEDState) :
    (EED.merge A B).scores = (EED.merge B A).scores ∧
    (EED.merge A B).total_num_sentences = (EED.merge B A).total_num_sentences ∧
    ((EED.merge A B).sentence_eed : Multiset ℚ) = ((EED.merge B A).sentence_eed : Multiset ℚ) ∧
    EED.merge (EED.merge A B) C = EED.merge A (EED.merge B C) := by
  refine ⟨add_comm _ _, add_comm _ _, ?_, ?_⟩
  · exact Multiset.coe_eq_coe.mpr List.perm_append_comm
  · simp [EED.merge, add_assoc]

/-- A successful batch scoring yields one score per batch element. -/
theorem scoreBatch_length (p : EEDParams) :
    ∀ (batch : List (List Char × List (List Char))) (l : List ℚ),
      scoreBatch p batch = some l → l.length = batch.length := by
  intro batch
  induction batch with
  | nil =>
      intro l h
      simp only [scoreBatch, Option.some.injEq] at h
      simp [← h]
  | cons pr rest ih =>
      intro l h
      simp only [scoreBatch] at h
      cases hs : scoreSentence p pr.1 pr.2 with
      | none => rw [hs] at h; simp at h
      | some v =>
          cases hb : scoreBatch p rest with
          | none => rw [hs, hb] at h; simp at h
          | some vs =>
              rw [hs, hb] at h
              simp only [Option.some.injEq] at h
              subst h
              simp [ih vs hb]

/-- Shape of a successful update: the state gained the batch score sum,
the batch length, and (when tracking) the batch scores in order. -/
theorem update_eq_some (s t : EEDState) (batch : List (List Char × List (List Char)))
    (h : EED.update s batch = some t) :
    ∃ scores : List ℚ, scoreBatch s.params batch = some scores ∧
      t = { s with
            scores := s.scores + scores.sum
            total_num_sentences := s.total_num_sentences + (scores.length : ℚ)
            sentence_eed := s.sentence_eed ++
              (if s.return_sentence_level_score then scores else []) } := by
  unfold EED.update at h
  rcases Option.map_eq_some'.mp h with ⟨r, hr, hft⟩
  unfold eedUpdateBatch at hr
  rcases Option.map_eq_some'.mp hr with ⟨scores, hsb, hgr⟩
  subst hgr
  exact ⟨scores, hsb, hft.symm⟩

/-- Claim C8: on every reachable accumulator state with per-sentence
tracking enabled, after any sequence of update and merge operations, the
length of the per-sentence list equals total_num_sentences, the count of
contributing sentence scores. -/
theorem reachable_sentence_count (s : EEDState) (h : EED.Reachable s)
    (htrack : s.return_sentence_level_score = true) :
    (s.sentence_eed.length : ℚ) = s.total_num_sentences := by
  revert htrack
  induction h with
  | init lang track p =>
      intro _
      simp [EED.initState]
  | update s' t batch hr heq ih =>
      intro htrack
      rcases update_eq_some s' t batch heq with ⟨scores, hsb, rfl⟩
      have hf : s'.return_sentence_level_score = true := htrack
      simp only [hf, if_true, List.length_append]
      push_cast
      rw [ih hf]
  | merge a b hra hrb hflag iha ihb =>
      intro htrack
      have hfa : a.return_sentence_level_score = true := htrack
      have hfb : b.return_sentence_level_score = true := hflag ▸ hfa
      simp only [EED.merge, List.length_append]
      push_cast
      rw [iha hfa, ihb hfb]

/-- Witness for C8 on a freshly constructed tracking state. -/
theorem reachable_sentence_count_witness :
    EED.Reachable (EED.initState "en" true defaultParams) ∧
    (EED.initState "en" true defaultParams).return_sentence_level_score = true ∧
    ((EED.initState "en" true defaultParams).sentence_eed.length : ℚ) =
      (EED.initState "en" true defaultParams).total_num_sentences :=
  ⟨EED.Reachable.init "en" true defaultParams, rfl,
    reachable_sentence_count _ (EED.Reachable.init "en" true defaultParams) rfl⟩
